import Mathlib

/-!
Verification of the process-spawning and lifecycle machinery in
`src/renderer_server/backend/multithreaded.rs` of the turtle repository.

The Rust module is shallowly embedded: each function is translated into a
pure Lean function over explicit state.  Interaction with the operating
system (locating the current executable, creating a child process, the
tokio runtime context, the eventual exit status of the child, the behaviour
of each `write_all` call on the child's stdin pipe) is passed in as explicit
parameters, and the observable effects of a call (processes created, tasks
spawned, whether a drop blocked) are returned as explicit traces.
-/

namespace Turtle

/-- Result type standing for Rust `io::Error` values; only their presence
matters to the claims, so an error is represented by its message. -/
abbrev IOError := String

/-- Outcome of running a piece of Rust code that may return normally,
panic, or terminate the whole process via `process::exit(code)`. -/
inductive RustOutcome (α : Type) where
  | ret : α → RustOutcome α
  | panicked : String → RustOutcome α
  | exited : Int → RustOutcome α
deriving DecidableEq, Repr

/-- The environment variable name `RENDERER_PROCESS_ENV_VAR` from the source:
set to "true" in a process that must take the server role. -/
def RENDERER_PROCESS_ENV_VAR : String := "RUN_TURTLE_CANVAS"

/-- A process environment: maps a variable name to its value, if set.
`none` also covers a value that is not readable as unicode, matching the
`env::var(..).ok()` call in the source which collapses both to `None`. -/
abbrev EnvMap := String → Option String

/-- Configuration of one standard stream of a `Command`
(`Stdio::piped()` vs the default of inheriting the parent's stream). -/
inductive StdioCfg where
  | piped
  | inherit
deriving DecidableEq, Repr

/-- The full configuration a `tokio::process::Command` builder accumulates
before `.spawn()` is called.  `envClear` records whether `env_clear()` was
called (the source never calls it); `envOverrides` records the explicit
`.env(k, v)` calls. -/
structure SpawnConfig where
  program : String
  args : List String
  envOverrides : List (String × String)
  envClear : Bool
  stdinCfg : StdioCfg
  stdoutCfg : StdioCfg
  stderrCfg : StdioCfg
  killOnDrop : Bool
deriving DecidableEq, Repr

/-- Environment of the spawned child, per the documented semantics of
`std::process::Command` (which `tokio::process::Command` mirrors): explicit
`.env` overrides take precedence; for every other variable the child
inherits the parent's value unless `env_clear()` was called. -/
def childEnv (parent : EnvMap) (cfg : SpawnConfig) : EnvMap := fun k =>
  match cfg.envOverrides.find? (fun p => p.1 == k) with
  | some p => some p.2
  | none => if cfg.envClear then none else parent k

/-- The exact configuration built by `RendererServerProcess::spawn`:
`Command::new(current_exe).env(RENDERER_PROCESS_ENV_VAR, "true")
.stdin(Stdio::piped()).kill_on_drop(true)`.  No `.arg`/`.args` call is
made, no `env_clear()`, and stdout/stderr are left at their default of
inheriting from the parent. -/
def spawnConfig (currentExe : String) : SpawnConfig :=
  { program := currentExe
  , args := []
  , envOverrides := [(RENDERER_PROCESS_ENV_VAR, "true")]
  , envClear := false
  , stdinCfg := StdioCfg.piped
  , stdoutCfg := StdioCfg.inherit
  , stderrCfg := StdioCfg.inherit
  , killOnDrop := true }

/-- A spawned OS child process, as seen through tokio's `Child`:
the claims only need its captured stdin write-end handle, which is
`Some` exactly when the OS delivered a pipe for the configured stdin. -/
structure Child where
  stdin : Option Nat
deriving DecidableEq, Repr

/-- A `tokio::runtime::Handle`. Opaque to the claims. -/
structure Handle where
  id : Nat
deriving DecidableEq, Repr

/-- A `futures_util` `RemoteHandle` to the supervision task. Opaque. -/
structure RemoteHandle where
  id : Nat
deriving DecidableEq, Repr

/-- Exit status of the child process, following Unix `ExitStatus`:
either a normal exit with a code, or termination by a signal. -/
inductive ExitStatus where
  | exited : Int → ExitStatus
  | signaled : Nat → ExitStatus
deriving DecidableEq, Repr

/-- `ExitStatus::success()`: true exactly for a normal exit with code 0. -/
def ExitStatus.success : ExitStatus → Bool
  | ExitStatus.exited 0 => true
  | _ => false

/-- `ExitStatus::code()`: the exit code if the process exited normally,
`None` if it was terminated by a signal. -/
def ExitStatus.code : ExitStatus → Option Int
  | ExitStatus.exited c => some c
  | ExitStatus.signaled _ => none

/-- The `RendererServerProcess` struct from the source: the captured
runtime handle, the optional supervision-task handle (consumed during
teardown), and the owned write end of the child's stdin pipe. -/
structure RendererServerProcess where
  runtime_handle : Handle
  task_handle : Option RemoteHandle
  child_stdin : Nat
deriving DecidableEq, Repr

/-- Ambient OS and runtime facts that `RendererServerProcess::spawn`
consults: the result of `env::current_exe()`, what the OS does when asked
to spawn a process with a given configuration, and whether the caller is
inside a tokio runtime context (`none` means `tokio::spawn` and
`Handle::current()` would panic). -/
structure SpawnEnv where
  currentExe : Except IOError String
  osSpawn : SpawnConfig → Except IOError Child
  runtimeCtx : Option Handle

/-- Observable side effects of a call to `spawn`. -/
inductive Effect where
  | processCreated : SpawnConfig → Effect
  | taskSpawned : RemoteHandle → Effect
deriving DecidableEq, Repr

/-- Whether an effect is the creation of an OS process. -/
def Effect.isProcessCreated : Effect → Bool
  | Effect.processCreated _ => true
  | _ => false

/-- Shallow embedding of `RendererServerProcess::spawn`.  Mirrors the
source line by line: `env::current_exe()?`, the `Command` builder and
`.spawn()?`, `child.stdin.take().expect(..)`, then
`tokio::spawn`/`Handle::current()` (which panic outside a runtime
context), returning the constructed struct.  The second component is the
trace of processes/tasks actually created along that path. -/
def RendererServerProcess.spawn (E : SpawnEnv) :
    RustOutcome (Except IOError RendererServerProcess) × List Effect :=
  match E.currentExe with
  | Except.error e => (RustOutcome.ret (Except.error e), [])
  | Except.ok exe =>
    match E.osSpawn (spawnConfig exe) with
    | Except.error e => (RustOutcome.ret (Except.error e), [])
    | Except.ok child =>
      match child.stdin with
      | none =>
        (RustOutcome.panicked
          ("bug: renderer process was not spawned with a handle to stdin"),
         [Effect.processCreated (spawnConfig exe)])
      | some stdinH =>
        match E.runtimeCtx with
        | none =>
          (RustOutcome.panicked
            ("must be called from the context of a Tokio runtime"),
           [Effect.processCreated (spawnConfig exe)])
        | some rt =>
          (RustOutcome.ret (Except.ok
            { runtime_handle := rt
            , task_handle := some { id := 0 }
            , child_stdin := stdinH }),
           [Effect.processCreated (spawnConfig exe),
            Effect.taskSpawned { id := 0 }])

/-- Observable behaviour of one run of `Drop::drop`: whether it blocked on
the supervision task via `block_on`, and whether the `task_handle.take()`
call ran and what it observed (`none` = take not reached; `some b` = take
ran and the handle was present iff `b`). -/
structure DropTrace where
  blocked : Bool
  tookHandle : Option Bool
deriving DecidableEq, Repr

/-- Shallow embedding of `impl Drop for RendererServerProcess`.
`panicking` is the value of `thread::panicking()`; `waitResult` is the
value `block_on(task_handle)` would yield, i.e. the result of the
supervision task (the child's `io::Result<ExitStatus>`).  Returns the
outcome of the drop, its trace, and the post state of the struct. -/
def RendererServerProcess.dropRun (panicking : Bool)
    (p : RendererServerProcess) (waitResult : Except IOError ExitStatus) :
    RustOutcome Unit × DropTrace × RendererServerProcess :=
  if panicking then
    (RustOutcome.ret (), { blocked := false, tookHandle := none }, p)
  else
    match p.task_handle with
    | none =>
      (RustOutcome.panicked ("called Option.unwrap on a None value"),
       { blocked := false, tookHandle := some false },
       { p with task_handle := none })
    | some _ =>
      let p1 : RendererServerProcess := { p with task_handle := none }
      match waitResult with
      | Except.ok st =>
        if st.success then
          (RustOutcome.ret (), { blocked := true, tookHandle := some true }, p1)
        else
          (RustOutcome.exited (st.code.getD 1),
           { blocked := true, tookHandle := some true }, p1)
      | Except.error e =>
        (RustOutcome.panicked ("error while running child process: " ++ e),
         { blocked := true, tookHandle := some true }, p1)

/-- The `self.task_handle.take()` step in isolation: yields the optional
handle and the struct with the slot emptied. -/
def takeTaskHandle (p : RendererServerProcess) :
    Option RemoteHandle × RendererServerProcess :=
  (p.task_handle, { p with task_handle := none })

/-- Outcome of `RendererServer::start`. -/
inductive StartOutcome where
  | returned
  | serverTakeover : Handle → StartOutcome
  | panicked : String → StartOutcome
deriving DecidableEq, Repr

/-- Shallow embedding of `RendererServer::start`.  `getVar` models
`env::var(..).ok()` (so `none` covers both an absent and an unreadable
variable); `runtimeNew` models whether `Runtime::new()` succeeds (its
failure is turned into a panic by `.expect`).  On the server path the
process enters `run_main` and never returns (`serverTakeover`); otherwise
the function returns with no effect. -/
def RendererServer.start (getVar : EnvMap) (runtimeNew : Option Handle) :
    StartOutcome :=
  if getVar RENDERER_PROCESS_ENV_VAR = some "true" then
    match runtimeNew with
    | none =>
      StartOutcome.panicked
        ("unable to spawn tokio runtime to run turtle server process")
    | some rt => StartOutcome.serverTakeover rt
  else
    StartOutcome.returned

/-- Behaviour of one `write_all` call on the stdin pipe: either the sink
accepts the whole buffer, or it fails after absorbing some prefix. -/
inductive WriteStep where
  | accept
  | fail : Nat → IOError → WriteStep
deriving DecidableEq, Repr

/-- Semantics of `AsyncWriteExt::write_all` against a byte sink modelled
as the list of bytes written so far: on success all bytes are appended; on
failure only a prefix is, and the error is returned. -/
def write_all (buf : List Nat) (data : List Nat) (s : WriteStep) :
    List Nat × Except IOError Unit :=
  match s with
  | WriteStep.accept => (buf ++ data, Except.ok ())
  | WriteStep.fail k e => (buf ++ data.take k, Except.error e)

/-- Shallow embedding of `RendererServerProcess::writeln`: writes `data`
then a single newline byte (10), propagating the first error with `?`.
`s1`/`s2` are the behaviours of the two underlying `write_all` calls. -/
def RendererServerProcess.writeln (buf : List Nat) (data : List Nat)
    (s1 s2 : WriteStep) : List Nat × Except IOError Unit :=
  match write_all buf data s1 with
  | (buf1, Except.error e) => (buf1, Except.error e)
  | (buf1, Except.ok _) => write_all buf1 [10] s2

/-- UTF-8 encoding of a string, as the list of its byte values. -/
def utf8Bytes (s : String) : List Nat :=
  s.toUTF8.toList.map (fun b => b.toNat)

/-- Shallow embedding of `RendererServerProcess::send_ipc_oneshot_name`:
delegates to `writeln` on the UTF-8 bytes of the name. -/
def RendererServerProcess.send_ipc_oneshot_name (buf : List Nat)
    (name : String) (s1 s2 : WriteStep) : List Nat × Except IOError Unit :=
  RendererServerProcess.writeln buf (utf8Bytes name) s1 s2

/-- Claim C3: dropping a `RendererServerProcess` while the current thread is
panicking returns immediately: it does not block on the supervision task,
does not touch the task handle, and changes nothing — the kill-on-drop
contract is left to terminate the child. -/
theorem C3_drop_while_panicking (p : RendererServerProcess)
    (w : Except IOError ExitStatus) :
    RendererServerProcess.dropRun true p w
      = (RustOutcome.ret (), { blocked := false, tookHandle := none }, p) := rfl

/-- Claim C4: `RendererServer::start` reads exactly the variable
`RUN_TURTLE_CANVAS`: value "true" takes the server path and never returns
to the caller (given the runtime can be built); any other situation
returns immediately; and the result depends only on that one variable, so
repeated calls in the same process behave the same way. -/
theorem C4_start_role_selection (g : EnvMap) (r : Option Handle) :
    (∀ rt, g RENDERER_PROCESS_ENV_VAR = some ("true") → r = some rt →
        RendererServer.start g r = StartOutcome.serverTakeover rt)
    ∧ (g RENDERER_PROCESS_ENV_VAR ≠ some ("true") →
        RendererServer.start g r = StartOutcome.returned)
    ∧ (∀ g2 : EnvMap,
        g2 RENDERER_PROCESS_ENV_VAR = g RENDERER_PROCESS_ENV_VAR →
        RendererServer.start g2 r = RendererServer.start g r) := by
  refine ⟨?_, ?_, ?_⟩
  · intro rt hg hr
    subst hr
    simp [RendererServer.start, hg]
  · intro hg
    simp [RendererServer.start, hg]
  · intro g2 hg
    simp [RendererServer.start, hg]

/-- Sample environment with the role marker set to the server value. -/
def serverEnvSample : EnvMap := fun k =>
  if k = RENDERER_PROCESS_ENV_VAR then some ("true") else none

/-- Sample environment with no variables set at all. -/
def clientEnvSample : EnvMap := fun _ => none

/-- Witness for C4 at concrete environments: the marker set to "true"
takes over as server; an empty environment returns to the caller. -/
theorem C4_witness :
    RendererServer.start serverEnvSample (some { id := 5 })
        = StartOutcome.serverTakeover { id := 5 }
    ∧ RendererServer.start clientEnvSample (some { id := 5 })
        = StartOutcome.returned :=
  ⟨(C4_start_role_selection serverEnvSample (some { id := 5 })).1
      { id := 5 } (by decide) rfl,
   (C4_start_role_selection clientEnvSample (some { id := 5 })).2.1
      (by decide)⟩

/-- Claim C5: if `send_ipc_oneshot_name` reports success then the pipe
received exactly the UTF-8 bytes of the name followed by one newline byte;
a partial write is never reported as `Ok`. -/
theorem C5_send_name_complete_or_error (buf : List Nat) (name : String)
    (s1 s2 : WriteStep)
    (h : (RendererServerProcess.send_ipc_oneshot_name buf name s1 s2).2
        = Except.ok ()) :
    (RendererServerProcess.send_ipc_oneshot_name buf name s1 s2).1
      = buf ++ utf8Bytes name ++ [10] := by
  cases s1 with
  | accept =>
    cases s2 with
    | accept =>
      simp [RendererServerProcess.send_ipc_oneshot_name,
        RendererServerProcess.writeln, write_all, List.append_assoc]
    | fail k e =>
      exact absurd h (by
        simp [RendererServerProcess.send_ipc_oneshot_name,
          RendererServerProcess.writeln, write_all])
  | fail k e =>
    exact absurd h (by
      simp [RendererServerProcess.send_ipc_oneshot_name,
        RendererServerProcess.writeln, write_all])

/-- Witness for C5 at a concrete name and a fault-free pipe. -/
theorem C5_witness :
    (RendererServerProcess.send_ipc_oneshot_name [] ("chan") WriteStep.accept
        WriteStep.accept).1 = [] ++ utf8Bytes ("chan") ++ [10] :=
  C5_send_name_complete_or_error [] ("chan") WriteStep.accept
    WriteStep.accept rfl

/-- Concrete process state used by the C8 witness. -/
def sampleProcC8 : RendererServerProcess :=
  { runtime_handle := { id := 0 }
  , task_handle := some { id := 0 }
  , child_stdin := 3 }

/-- Claim C8: during non-panicking teardown, if waiting on the supervision
task yields an error rather than an exit status, the drop panics — it
neither returns normally nor exits the process. -/
theorem C8_drop_wait_error_is_fatal (p : RendererServerProcess)
    (e : IOError) (h : p.task_handle.isSome = true) :
    (RendererServerProcess.dropRun false p (Except.error e)).1
      = RustOutcome.panicked ("error while running child process: " ++ e)
    ∧ (∀ u, (RendererServerProcess.dropRun false p (Except.error e)).1
        ≠ RustOutcome.ret u)
    ∧ (∀ c, (RendererServerProcess.dropRun false p (Except.error e)).1
        ≠ RustOutcome.exited c) := by
  obtain ⟨hdl, hh⟩ := Option.isSome_iff_exists.mp h
  refine ⟨?_, ?_, ?_⟩ <;> simp [RendererServerProcess.dropRun, hh]

/-- Witness for C8 at a concrete process state and wait error. -/
theorem C8_witness :
    (RendererServerProcess.dropRun false sampleProcC8
        (Except.error ("waitpid failed"))).1
      = RustOutcome.panicked
          ("error while running child process: " ++ "waitpid failed") :=
  (C8_drop_wait_error_is_fatal sampleProcC8 ("waitpid failed") rfl).1

/-- Sample parent environment with an ordinary variable set. -/
def sampleParentEnv : EnvMap := fun k =>
  if k = "HOME" then some ("/home/user") else none

/-- Claim C1 is false on the code: `spawn` never calls `env_clear()`, so
under the documented `Command` semantics the child inherits every parent
environment variable.  Concretely, a parent with `HOME` set produces a
child whose environment still contains `HOME`, which is not the marker. -/
theorem C1_counterexample :
    childEnv sampleParentEnv (spawnConfig ("/usr/bin/turtle-app")) ("HOME")
        = some ("/home/user")
    ∧ ("HOME" : String) ≠ RENDERER_PROCESS_ENV_VAR := by
  constructor
  · rfl
  · decide

/-- Claim C1 (amended): the spawned child receives no command-line
arguments and its stdin is a pipe rather than the parent's input, and the
marker is set to "true"; however every other variable of the parent
environment is inherited unchanged by the child (the environment is not
cleared). -/
theorem C1_spawn_clean_slate_amended (parent : EnvMap) (exe : String) :
    (spawnConfig exe).args = []
    ∧ (spawnConfig exe).stdinCfg = StdioCfg.piped
    ∧ childEnv parent (spawnConfig exe) RENDERER_PROCESS_ENV_VAR
        = some ("true")
    ∧ ∀ k, k ≠ RENDERER_PROCESS_ENV_VAR →
        childEnv parent (spawnConfig exe) k = parent k := by
  refine ⟨rfl, rfl, rfl, ?_⟩
  intro k hk
  have hbeq : (RENDERER_PROCESS_ENV_VAR == k) = false :=
    beq_eq_false_iff_ne.mpr (fun h => hk h.symm)
  simp [childEnv, spawnConfig, List.find?, hbeq]

/-- Witness for C1 (amended) at a concrete variable and parent env. -/
theorem C1_amended_witness :
    childEnv sampleParentEnv (spawnConfig ("/usr/bin/turtle-app")) ("PATH")
      = sampleParentEnv ("PATH") :=
  (C1_spawn_clean_slate_amended sampleParentEnv ("/usr/bin/turtle-app")).2.2.2
    ("PATH") (by decide)

/-- Concrete process state used by the C2 witness. -/
def sampleProcC2 : RendererServerProcess :=
  { runtime_handle := { id := 0 }
  , task_handle := some { id := 0 }
  , child_stdin := 3 }

/-- Claim C2: dropping while not panicking blocks on the supervision task,
and on a real exit status: success tears down silently (normal return),
non-success exits the client with the child's code when available, and
with 1 when the child has no code (killed by a signal). -/
theorem C2_drop_normal_teardown (p : RendererServerProcess)
    (w : Except IOError ExitStatus) (h : p.task_handle.isSome = true) :
    (RendererServerProcess.dropRun false p w).2.1.blocked = true
    ∧ (∀ st, w = Except.ok st → st.success = true →
        (RendererServerProcess.dropRun false p w).1 = RustOutcome.ret ())
    ∧ (∀ st c, w = Except.ok st → st.success = false → st.code = some c →
        (RendererServerProcess.dropRun false p w).1 = RustOutcome.exited c)
    ∧ (∀ st, w = Except.ok st → st.success = false → st.code = none →
        (RendererServerProcess.dropRun false p w).1 = RustOutcome.exited 1) := by
  obtain ⟨hdl, hh⟩ := Option.isSome_iff_exists.mp h
  refine ⟨?_, ?_, ?_, ?_⟩
  · cases w with
    | error e => simp [RendererServerProcess.dropRun, hh]
    | ok st =>
      by_cases hs : st.success <;>
        simp [RendererServerProcess.dropRun, hh, hs]
  · intro st hw hs
    subst hw
    simp [RendererServerProcess.dropRun, hh, hs]
  · intro st c hw hs hc
    subst hw
    simp [RendererServerProcess.dropRun, hh, hs, hc]
  · intro st hw hs hc
    subst hw
    simp [RendererServerProcess.dropRun, hh, hs, hc]

/-- Witness for C2: a child that exited with code 3 makes the non-panicking
drop terminate the client with exit code 3, after blocking on the task. -/
theorem C2_witness :
    (RendererServerProcess.dropRun false sampleProcC2
        (Except.ok (ExitStatus.exited 3))).2.1.blocked = true
    ∧ (RendererServerProcess.dropRun false sampleProcC2
        (Except.ok (ExitStatus.exited 3))).1 = RustOutcome.exited 3 :=
  ⟨(C2_drop_normal_teardown sampleProcC2
      (Except.ok (ExitStatus.exited 3)) rfl).1,
   (C2_drop_normal_teardown sampleProcC2
      (Except.ok (ExitStatus.exited 3)) rfl).2.2.1
      (ExitStatus.exited 3) 3 rfl rfl rfl⟩

/-- Claim C6: a successful spawn creates exactly one companion process,
launched from the current executable, with the marker set to "true" in
its environment, stdin piped (its write end owned by the returned
struct), stdout/stderr inherited, and kill-on-drop requested. -/
theorem C6_spawn_success_configuration (E : SpawnEnv) (exe : String)
    (c : Child) (sh : Nat) (rt : Handle)
    (hexe : E.currentExe = Except.ok exe)
    (hos : E.osSpawn (spawnConfig exe) = Except.ok c)
    (hstdin : c.stdin = some sh)
    (hctx : E.runtimeCtx = some rt) :
    RendererServerProcess.spawn E
      = (RustOutcome.ret (Except.ok
          { runtime_handle := rt
          , task_handle := some { id := 0 }
          , child_stdin := sh }),
         [Effect.processCreated (spawnConfig exe),
          Effect.taskSpawned { id := 0 }])
    ∧ (RendererServerProcess.spawn E).2.countP Effect.isProcessCreated = 1
    ∧ (spawnConfig exe).program = exe
    ∧ (∀ parent : EnvMap,
        childEnv parent (spawnConfig exe) RENDERER_PROCESS_ENV_VAR
          = some ("true"))
    ∧ (spawnConfig exe).stdinCfg = StdioCfg.piped
    ∧ (spawnConfig exe).stdoutCfg = StdioCfg.inherit
    ∧ (spawnConfig exe).stderrCfg = StdioCfg.inherit
    ∧ (spawnConfig exe).killOnDrop = true := by
  have hspawn : RendererServerProcess.spawn E
      = (RustOutcome.ret (Except.ok
          { runtime_handle := rt
          , task_handle := some { id := 0 }
          , child_stdin := sh }),
         [Effect.processCreated (spawnConfig exe),
          Effect.taskSpawned { id := 0 }]) := by
    simp [RendererServerProcess.spawn, hexe, hos, hstdin, hctx]
  refine ⟨hspawn, ?_, rfl, fun parent => rfl, rfl, rfl, rfl, rfl⟩
  rw [hspawn]
  simp [List.countP_cons, Effect.isProcessCreated]

/-- Concrete ambient OS facts for the C6 witness. -/
def sampleSpawnEnvC6 : SpawnEnv :=
  { currentExe := Except.ok ("/usr/bin/turtle-app")
  , osSpawn := fun _ => Except.ok { stdin := some 7 }
  , runtimeCtx := some { id := 1 } }

/-- Witness for C6 at a concrete successful spawn. -/
theorem C6_witness :
    RendererServerProcess.spawn sampleSpawnEnvC6
      = (RustOutcome.ret (Except.ok
          { runtime_handle := { id := 1 }
          , task_handle := some { id := 0 }
          , child_stdin := 7 }),
         [Effect.processCreated (spawnConfig ("/usr/bin/turtle-app")),
          Effect.taskSpawned { id := 0 }]) :=
  (C6_spawn_success_configuration sampleSpawnEnvC6 ("/usr/bin/turtle-app")
      { stdin := some 7 } 7 { id := 1 } rfl rfl rfl rfl).1

/-- Claim C7: under the OS pipe contract (a successful spawn configured
with piped stdin delivers a stdin handle) and inside a runtime context,
every spawn failure — unresolvable executable path or OS process-creation
failure — is returned to the caller as an I/O error; an error return
leaves no partial state (no process was created); and the call never
panics: it either errors or returns a fully constructed handle. -/
theorem C7_spawn_failures_surfaced (E : SpawnEnv)
    (hpipe : ∀ cfg c, E.osSpawn cfg = Except.ok c →
        cfg.stdinCfg = StdioCfg.piped → c.stdin.isSome = true)
    (hctx : E.runtimeCtx.isSome = true) :
    (∀ e, E.currentExe = Except.error e →
        RendererServerProcess.spawn E
          = (RustOutcome.ret (Except.error e), []))
    ∧ (∀ exe e, E.currentExe = Except.ok exe →
        E.osSpawn (spawnConfig exe) = Except.error e →
        RendererServerProcess.spawn E
          = (RustOutcome.ret (Except.error e), []))
    ∧ (∀ e, (RendererServerProcess.spawn E).1
          = RustOutcome.ret (Except.error e) →
        (RendererServerProcess.spawn E).2 = [])
    ∧ ((∃ e, (RendererServerProcess.spawn E).1
          = RustOutcome.ret (Except.error e))
        ∨ (∃ p, (RendererServerProcess.spawn E).1
          = RustOutcome.ret (Except.ok p))) := by
  have main : (∃ e, RendererServerProcess.spawn E
        = (RustOutcome.ret (Except.error e), []))
      ∨ (∃ p tr, RendererServerProcess.spawn E
        = (RustOutcome.ret (Except.ok p), tr)) := by
    cases hE : E.currentExe with
    | error e => exact Or.inl ⟨e, by simp [RendererServerProcess.spawn, hE]⟩
    | ok exe =>
      cases hO : E.osSpawn (spawnConfig exe) with
      | error e =>
        exact Or.inl ⟨e, by simp [RendererServerProcess.spawn, hE, hO]⟩
      | ok c =>
        obtain ⟨sh, hsh⟩ := Option.isSome_iff_exists.mp (hpipe _ _ hO rfl)
        obtain ⟨rt, hrt⟩ := Option.isSome_iff_exists.mp hctx
        exact Or.inr ⟨{ runtime_handle := rt
                      , task_handle := some { id := 0 }
                      , child_stdin := sh },
          [Effect.processCreated (spawnConfig exe),
           Effect.taskSpawned { id := 0 }], by
          simp [RendererServerProcess.spawn, hE, hO, hsh, hrt]⟩
  refine ⟨?_, ?_, ?_, ?_⟩
  · intro e he
    simp [RendererServerProcess.spawn, he]
  · intro exe e he ho
    simp [RendererServerProcess.spawn, he, ho]
  · intro e he
    rcases main with ⟨e2, heq⟩ | ⟨p, tr, heq⟩
    · rw [heq]
    · rw [heq] at he
      simp at he
  · rcases main with ⟨e2, heq⟩ | ⟨p, tr, heq⟩
    · exact Or.inl ⟨e2, by rw [heq]⟩
    · exact Or.inr ⟨p, by rw [heq]⟩

/-- Concrete ambient OS facts for the C7 witness: the executable path
cannot be resolved. -/
def sampleSpawnEnvC7 : SpawnEnv :=
  { currentExe := Except.error ("no such file or directory")
  , osSpawn := fun _ => Except.error ("spawn failure")
  , runtimeCtx := some { id := 0 } }

/-- Witness for C7: an unresolvable executable path is returned as an
error with an empty effect trace. -/
theorem C7_witness :
    RendererServerProcess.spawn sampleSpawnEnvC7
      = (RustOutcome.ret (Except.error ("no such file or directory")), []) :=
  (C7_spawn_failures_surfaced sampleSpawnEnvC7
      (fun _ _ h _ => Except.noConfusion h) rfl).1
    ("no such file or directory") rfl

/-- Claim C9: in a struct returned by a successful spawn the task handle
is present; non-panicking teardown takes it and observes it present
(never `None`), the post state has the slot emptied (the handle was moved
out exactly once), and a second take on the post state can only observe
an empty slot. -/
theorem C9_task_handle_consumed_once (E : SpawnEnv)
    (p : RendererServerProcess) (tr : List Effect)
    (hs : RendererServerProcess.spawn E
        = (RustOutcome.ret (Except.ok p), tr)) :
    p.task_handle.isSome = true
    ∧ (takeTaskHandle p).1.isSome = true
    ∧ (∀ w, (RendererServerProcess.dropRun false p w).2.1.tookHandle
        = some true)
    ∧ (∀ w, (RendererServerProcess.dropRun false p w).2.2.task_handle
        = none)
    ∧ (takeTaskHandle (takeTaskHandle p).2).1 = none := by
  have hsome : p.task_handle = some { id := 0 } := by
    cases hE : E.currentExe with
    | error e => simp [RendererServerProcess.spawn, hE] at hs
    | ok exe =>
      cases hO : E.osSpawn (spawnConfig exe) with
      | error e => simp [RendererServerProcess.spawn, hE, hO] at hs
      | ok c =>
        cases hc : c.stdin with
        | none => simp [RendererServerProcess.spawn, hE, hO, hc] at hs
        | some sh =>
          cases hr : E.runtimeCtx with
          | none => simp [RendererServerProcess.spawn, hE, hO, hc, hr] at hs
          | some rt =>
            simp [RendererServerProcess.spawn, hE, hO, hc, hr] at hs
            rw [← hs.1]
  refine ⟨by simp [hsome], by simp [takeTaskHandle, hsome], ?_, ?_, ?_⟩
  · intro w
    cases w with
    | error e => simp [RendererServerProcess.dropRun, hsome]
    | ok st =>
      by_cases hsuc : st.success <;>
        simp [RendererServerProcess.dropRun, hsome, hsuc]
  · intro w
    cases w with
    | error e => simp [RendererServerProcess.dropRun, hsome]
    | ok st =>
      by_cases hsuc : st.success <;>
        simp [RendererServerProcess.dropRun, hsome, hsuc]
  · simp [takeTaskHandle]

/-- Concrete ambient OS facts for the C9 witness. -/
def sampleSpawnEnvC9 : SpawnEnv :=
  { currentExe := Except.ok ("/usr/bin/turtle-app")
  , osSpawn := fun _ => Except.ok { stdin := some 7 }
  , runtimeCtx := some { id := 1 } }

/-- Witness for C9 on the struct a concrete successful spawn returns. -/
theorem C9_witness :
    ({ runtime_handle := { id := 1 }
     , task_handle := some { id := 0 }
     , child_stdin := 7 } : RendererServerProcess).task_handle.isSome
      = true :=
  (C9_task_handle_consumed_once sampleSpawnEnvC9
      { runtime_handle := { id := 1 }
      , task_handle := some { id := 0 }
      , child_stdin := 7 }
      [Effect.processCreated (spawnConfig ("/usr/bin/turtle-app")),
       Effect.taskSpawned { id := 0 }] rfl).1

/-- Claim C10: `spawn` has the unstated precondition of running inside the
runtime context: even when the executable path resolves and the OS spawn
succeeds, a call outside any runtime context panics and in particular does
not return an I/O error (or anything else) to the caller. -/
theorem C10_spawn_outside_runtime_panics (E : SpawnEnv) (exe : String)
    (c : Child) (sh : Nat)
    (hexe : E.currentExe = Except.ok exe)
    (hos : E.osSpawn (spawnConfig exe) = Except.ok c)
    (hstdin : c.stdin = some sh)
    (hctx : E.runtimeCtx = none) :
    (RendererServerProcess.spawn E).1
      = RustOutcome.panicked
          ("must be called from the context of a Tokio runtime")
    ∧ (∀ r : Except IOError RendererServerProcess,
        (RendererServerProcess.spawn E).1 ≠ RustOutcome.ret r) := by
  refine ⟨?_, ?_⟩ <;>
    simp [RendererServerProcess.spawn, hexe, hos, hstdin, hctx]

/-- Concrete ambient OS facts for the C10 witness: everything succeeds but
there is no ambient runtime. -/
def sampleSpawnEnvC10 : SpawnEnv :=
  { currentExe := Except.ok ("/usr/bin/turtle-app")
  , osSpawn := fun _ => Except.ok { stdin := some 2 }
  , runtimeCtx := none }

/-- Witness for C10 at a concrete environment with no runtime context. -/
theorem C10_witness :
    (RendererServerProcess.spawn sampleSpawnEnvC10).1
      = RustOutcome.panicked
          ("must be called from the context of a Tokio runtime") :=
  (C10_spawn_outside_runtime_panics sampleSpawnEnvC10 ("/usr/bin/turtle-app")
      { stdin := some 2 } 2 rfl rfl rfl rfl).1

end Turtle
